import Mathlib

/-!
Verification of the creator-discovery pipeline (penni-ai platform).

This file gives a shallow embedding, in Lean 4, of the parts of the Python
source that the verified properties talk about:

* `functions/stage_utils.py` (stage progress computation),
* `functions/cleanup_expired_pipelines.py` (TTL sweeper),
* `functions/functions/runtime/core/pipeline/stages/weaviate_search_stage.py`
  (search-stage dedup loop and final ranking cut),
* `functions/functions/runtime/core/pipeline/stages/brightdata_stage.py`
  (enrichment record application and URL synthesis),
* `functions/functions/runtime/core/post_filter/brightdata_client.py`
  (platform grouping and dataset routing),
* `functions/functions/runtime/core/post_filter/profile_fit.py` and
  `.../stages/llm_fit_stage.py` (LLM fit scoring and merge),
* `functions/functions/runtime/core/pipeline/stages/rerank_stage.py` and
  `.../services/rerank_client.py` (rerank degradation),
* `functions/functions/runtime/services/query_expansion.py` (query expansion).

Modelling conventions:

* Python `str` is Lean `String`; `Optional[T]` is `Option T`; Python `int`
  is `Int` (no machine overflow is involved anywhere in this code);
  Python `float` score fields are modelled as `Rat` (scores are only
  compared, never arithmetically combined, so IEEE rounding is irrelevant).
* Values parsed from JSON are the inductive `PyJson`; JSON numbers are
  modelled as integers (every claim touching a JSON number quantifies over
  integer values only).
* External calls (the search backend, the OpenAI chat/responses APIs, the
  BrightData dataset API, the rerank HTTP endpoint) are parameters of the
  embedded functions ("oracles"): each embedded function takes the
  observable outcome of those calls as an argument.  Deterministic
  post-processing of an oracle reply that the claims never inspect at the
  character level (`json.loads` plus code-fence stripping) is folded into
  the oracle, which hands back either a raised-exception message
  (`Except.error`) or the parsed JSON value (`Except.ok`).
* `str.strip()/.lower()/.upper()` are re-implemented over character lists
  (`pyStrip`, `pyLower`, `pyUpper`) so that concrete witnesses evaluate
  inside the kernel.
-/

/-- `str.strip()` — remove leading and trailing whitespace. -/
def pyStrip (s : String) : String :=
  ⟨((s.data.dropWhile Char.isWhitespace).reverse.dropWhile Char.isWhitespace).reverse⟩

/-- `str.lower()` (ASCII case mapping, which is all the source compares). -/
def pyLower (s : String) : String := ⟨s.data.map Char.toLower⟩

/-- `str.upper()` (ASCII case mapping). -/
def pyUpper (s : String) : String := ⟨s.data.map Char.toUpper⟩

/-- Python `a or b` for strings, where `""` is falsy. -/
def pyOr2 (a b : String) : String := if a ≠ "" then a else b

/-- A parsed JSON value (`json.loads` result).  Numbers are modelled as
integers; see the module comment. -/
inductive PyJson where
  | null
  | bool (b : Bool)
  | num (n : Int)
  | str (s : String)
  | arr (xs : List PyJson)
  | obj (kvs : List (String × PyJson))

/-- A JSON object / Python dict, as an association list. -/
abbrev Record := List (String × PyJson)

/-- `dict.get(key)`: the stored value, or Python `None` (`.null`) when the
key is absent.  This also matches the fact that a JSON `null` value and a
missing key are indistinguishable through `dict.get`. -/
def Record.get (r : Record) (k : String) : PyJson :=
  match List.lookup k r with
  | some v => v
  | none => PyJson.null

/-- Python truthiness of a JSON value. -/
def pyTruthy : PyJson → Bool
  | .null => false
  | .bool b => b
  | .num n => n != 0
  | .str s => s != ""
  | .arr xs => !xs.isEmpty
  | .obj kvs => !kvs.isEmpty

/-- Python `a or b` on JSON values. -/
def pyOrJ (a b : PyJson) : PyJson := if pyTruthy a then a else b

/-- Digits-only accumulator used by the `int(...)` / `float(...)` models. -/
def digitsVal (cs : List Char) : Option Nat :=
  cs.foldl
    (fun acc c =>
      match acc with
      | none => none
      | some n => if c.isDigit then some (n * 10 + (c.toNat - 48)) else none)
    (some 0)

/-- Python `int(s)` on a string: strip whitespace, optional sign, digits. -/
def pyParseInt (s : String) : Option Int :=
  match (pyStrip s).data with
  | '-' :: rest => if rest.isEmpty then none else (digitsVal rest).map (fun n => -(n : Int))
  | '+' :: rest => if rest.isEmpty then none else (digitsVal rest).map (fun n => (n : Int))
  | rest => if rest.isEmpty then none else (digitsVal rest).map (fun n => (n : Int))

/-- Python `int(float(s))` on a string: `[sign] digits [. digits]`, truncated
toward zero.  Exponent forms and `inf`/`nan` are not modelled (they cannot
occur in the follower-count cells this is applied to, and no claim depends
on them). -/
def pyParseFloatTrunc (s : String) : Option Int :=
  let core := fun (cs : List Char) (sign : Int) =>
    let ip := cs.takeWhile Char.isDigit
    let rest := cs.dropWhile Char.isDigit
    match rest with
    | [] => if ip.isEmpty then none else (digitsVal ip).map (fun n => sign * (n : Int))
    | '.' :: fp =>
        if ip.isEmpty && fp.isEmpty then none
        else if fp.all Char.isDigit then (digitsVal ip).map (fun n => sign * (n : Int))
        else none
    | _ => none
  match (pyStrip s).data with
  | '-' :: rest => core rest (-1)
  | '+' :: rest => core rest 1
  | rest => core rest 1

/-- Python `int(x)` on a JSON value (`bool` is an `int` in Python). -/
def pyToInt : PyJson → Option Int
  | .num n => some n
  | .bool b => some (cond b 1 0)
  | .str s => pyParseInt s
  | _ => none

/-- Python `int(float(x))` on a JSON value. -/
def pyFloatInt : PyJson → Option Int
  | .num n => some n
  | .bool b => some (cond b 1 0)
  | .str s => pyParseFloatTrunc s
  | _ => none

/- ------------------------------------------------------------------ -/
/- Generic list machinery shared by several stage models.             -/
/- ------------------------------------------------------------------ -/

/-- One insertion step of a stable descending sort: `gt y x` means the
already-placed element `y` must stay ahead of `x` (its sort key is strictly
greater), so an element never jumps ahead of an equal-keyed earlier one. -/
def insertDesc (gt : α → α → Bool) (x : α) : List α → List α
  | [] => [x]
  | y :: ys => if gt y x then y :: insertDesc gt x ys else x :: y :: ys

/-- Stable descending sort; the embedding of Python
`sorted(items, key=..., reverse=True)` (stable sorts with the same
comparator produce identical output, so insertion sort is an exact model). -/
def sortDesc (gt : α → α → Bool) (l : List α) : List α :=
  l.foldr (insertDesc gt) []

theorem insertDesc_perm (gt : α → α → Bool) (x : α) (l : List α) :
    List.Perm (insertDesc gt x l) (x :: l) := by
  induction l with
  | nil => simp [insertDesc]
  | cons y ys ih =>
      by_cases h : gt y x = true
      · simpa [insertDesc, h] using
          (List.Perm.trans (List.Perm.cons y ih) (List.Perm.swap x y ys))
      · simp [insertDesc, h]

theorem sortDesc_perm (gt : α → α → Bool) (l : List α) :
    List.Perm (sortDesc gt l) l := by
  induction l with
  | nil => simp [sortDesc]
  | cons x xs ih =>
      exact List.Perm.trans (insertDesc_perm gt x (sortDesc gt xs)) (List.Perm.cons x ih)

/-- Map with the element index, mirroring an enumerated loop. -/
def mapWithIdx (f : Nat → α → β) : Nat → List α → List β
  | _, [] => []
  | i, a :: as => f i a :: mapWithIdx f (i + 1) as

theorem mem_mapWithIdx {f : Nat → α → β} {i : Nat} {l : List α} {b : β}
    (h : b ∈ mapWithIdx f i l) : ∃ j a, a ∈ l ∧ b = f j a := by
  induction l generalizing i with
  | nil => simp [mapWithIdx] at h
  | cons x xs ih =>
      simp only [mapWithIdx, List.mem_cons] at h
      rcases h with h | h
      · exact ⟨i, x, by simp, h⟩
      · rcases ih h with ⟨j, a, ha, hb⟩
        exact ⟨j, a, by simp [ha], hb⟩

/- ------------------------------------------------------------------ -/
/- C4: stage progress (`functions/stage_utils.py`).                   -/
/- ------------------------------------------------------------------ -/

/-- `STAGE_ORDER = ["SEARCH", "BRIGHTDATA", "LLM_FIT"]`. -/
def STAGE_ORDER : List String := ["SEARCH", "BRIGHTDATA", "LLM_FIT"]

/-- `_PROGRESS_STEP = int(100 / len(STAGE_ORDER))` (= 33). -/
def PROGRESS_STEP : Nat := 100 / STAGE_ORDER.length

/-- `get_stage_progress` from `stage_utils.py`. -/
def getStageProgress (stageName : String) : Nat :=
  let upper := pyUpper stageName
  if upper ∈ STAGE_ORDER then
    let idx := STAGE_ORDER.indexOf upper
    if idx = STAGE_ORDER.length - 1 then 100
    else min 100 ((idx + 1) * PROGRESS_STEP)
  else 0

/-- The progress value the spec sentence prescribes: `round(100*(i+1)/n)`,
written as exact half-up integer rounding (no half-tie arises for `n = 3`,
so this agrees with Python `round`). -/
def specRoundedProgress (i n : Nat) : Nat := (200 * (i + 1) + n) / (2 * n)

/- ------------------------------------------------------------------ -/
/- C5: TTL sweeper (`functions/cleanup_expired_pipelines.py`).        -/
/- ------------------------------------------------------------------ -/

/-- A pipeline status / stage document as seen by the sweeper: just its
`pipeline_id` and its `ttl` field.  Instants are integers (e.g. epoch
seconds); `none` models a document whose `ttl` field is absent/None. -/
structure SweepDoc where
  pipelineId : String
  ttl : Option Int
deriving DecidableEq

/-- `_ttl_expired(ttl_value, now)`: a missing ttl counts as expired; a
datetime/timestamp ttl is expired iff `ttl <= now`.  (The
`to_datetime`-converter branch of the source performs the same comparison
after a timezone conversion; both concrete representations are the
`some t` case here.) -/
def ttlExpired (ttlValue : Option Int) (now : Int) : Bool :=
  match ttlValue with
  | none => true
  | some t => t ≤ now

/-- The deletion batch assembled by `_delete_pipeline_documents`: of the
snapshots streamed for one pipeline id, exactly those whose ttl has
expired are added to the delete batch. -/
def deleteExpiredDocs (snapshots : List SweepDoc) (now : Int) : List SweepDoc :=
  snapshots.filter (fun d => ttlExpired d.ttl now)

/-- C5 counterexample: the claim says a document is deleted *only if* its
ttl is ≤ the sweep start time; but a document whose `ttl` field is missing
(`None`) is deleted by `_ttl_expired`'s first branch even though it has no
ttl at or before `now`. -/
theorem C5_counterexample :
    (SweepDoc.mk "p1" none) ∈ deleteExpiredDocs [SweepDoc.mk "p1" none] 0 ∧
      ¬∃ t : Int, (SweepDoc.mk "p1" none).ttl = some t ∧ t ≤ 0 := by
  constructor
  · simp [deleteExpiredDocs, ttlExpired]
  · rintro ⟨t, ht, -⟩
    simp at ht

/-- C5 (amended): a document examined by the sweeper is deleted iff its
ttl is missing or is ≤ the sweep's start time; in particular a document
with `ttl > now` is never deleted and one with `ttl ≤ now` is always
eligible. -/
theorem C5_ttl_correctness (snapshots : List SweepDoc) (now : Int) (d : SweepDoc) :
    (d ∈ deleteExpiredDocs snapshots now ↔
      d ∈ snapshots ∧ (d.ttl = none ∨ ∃ t, d.ttl = some t ∧ t ≤ now)) := by
  constructor
  · intro h
    rcases List.mem_filter.mp h with ⟨hmem, hexp⟩
    refine ⟨hmem, ?_⟩
    cases hd : d.ttl with
    | none => exact Or.inl rfl
    | some t =>
        refine Or.inr ⟨t, rfl, ?_⟩
        rw [ttlExpired.eq_def, hd] at hexp
        exact of_decide_eq_true hexp
  · rintro ⟨hmem, h | ⟨t, ht, hle⟩⟩
    · exact List.mem_filter.mpr ⟨hmem, by rw [ttlExpired.eq_def, h]⟩
    · exact List.mem_filter.mpr ⟨hmem, by rw [ttlExpired.eq_def, ht]; exact decide_eq_true hle⟩

/-- C5 witness: a document with `ttl = 5` is deleted at `now = 5` (ttl ≤
now is eligible), and one with `ttl = 7` is not in the deletion batch at
`now = 5`. -/
theorem C5_ttl_correctness_witness :
    ((SweepDoc.mk "p" (some 5)) ∈ deleteExpiredDocs [SweepDoc.mk "p" (some 5), SweepDoc.mk "p" (some 7)] 5) ∧
      ¬((SweepDoc.mk "p" (some 7)) ∈ deleteExpiredDocs [SweepDoc.mk "p" (some 5), SweepDoc.mk "p" (some 7)] 5) := by
  constructor
  · exact (C5_ttl_correctness [SweepDoc.mk "p" (some 5), SweepDoc.mk "p" (some 7)] 5
      (SweepDoc.mk "p" (some 5))).mpr ⟨by decide, Or.inr ⟨5, rfl, by decide⟩⟩
  · intro h
    have := (C5_ttl_correctness [SweepDoc.mk "p" (some 5), SweepDoc.mk "p" (some 7)] 5
      (SweepDoc.mk "p" (some 7))).mp h
    rcases this with ⟨-, hc | ⟨t, ht, hle⟩⟩
    · simp at hc
    · simp at ht
      omega

/-- C4 counterexample: completing BRIGHTDATA (stage index 1 of 3) stores
`min(100, 2 * int(100/3)) = 66`, but the claim's formula
`round(100*2/3)` gives 67. -/
theorem C4_counterexample :
    getStageProgress "BRIGHTDATA" = 66 ∧ specRoundedProgress 1 3 = 67 ∧ (66 : Nat) ≠ 67 := by
  refine ⟨?_, by decide, by decide⟩
  decide

/-- C4 (amended): completing stage `i` of the fixed 3-stage order sets
progress to `min(100, (i+1) * int(100/3))` — i.e. 33, 66, 100 — with the
last stage pinned to 100; progress is therefore non-decreasing along the
fixed order and equals 100 only at the final stage. -/
theorem C4_progress_monotone :
    getStageProgress "SEARCH" = 33 ∧
      getStageProgress "BRIGHTDATA" = 66 ∧
      getStageProgress "LLM_FIT" = 100 ∧
      getStageProgress "SEARCH" ≤ getStageProgress "BRIGHTDATA" ∧
      getStageProgress "BRIGHTDATA" ≤ getStageProgress "LLM_FIT" ∧
      (∀ s ∈ STAGE_ORDER, getStageProgress s = 100 → s = "LLM_FIT") := by
  refine ⟨by decide, by decide, by decide, by decide, by decide, ?_⟩
  decide

/- ------------------------------------------------------------------ -/
/- The CreatorProfile dataclass (`runtime/models/domain.py`).         -/
/- ------------------------------------------------------------------ -/

/-- `CreatorProfile` from `functions/runtime/models/domain.py`, field for
field.  Typing notes: float-valued score fields are `Rat` (only ever
compared); `posts_raw`, `profile_image_link`, `profile_image_url` and
`fit_rationale` are declared `str`-ish in the dataclass but the runtime
stores raw upstream JSON values in them (`_apply_record`,
`_score_profile`), so they are modelled over `PyJson`. -/
structure CreatorProfile where
  id : Int
  account : String
  profile_name : String
  followers : Int
  avg_engagement : Rat
  business_category_name : String
  business_address : String
  biography : String
  profile_image_link : PyJson := .str ""
  profile_url : Option String := none
  is_personal_creator : Bool := true
  is_verified : Option Bool := none
  posts_raw : Option PyJson := none
  lance_db_id : Option String := none
  platform : Option String := none
  platform_id : Option String := none
  username : Option String := none
  display_name : Option String := none
  profile_image_url : Option PyJson := none
  individual_vs_org_score : Int := 0
  generational_appeal_score : Int := 0
  professionalization_score : Int := 0
  relationship_status_score : Int := 0
  bm25_fts_score : Option Rat := none
  cos_sim_profile : Option Rat := none
  cos_sim_posts : Option Rat := none
  combined_score : Rat := 0
  keyword_similarity : Option Rat := none
  profile_similarity : Option Rat := none
  content_similarity : Option Rat := none
  vector_similarity_score : Option Rat := none
  similarity_explanation : String := ""
  score_mode : String := "hybrid"
  profile_fts_source : Option String := none
  posts_fts_source : Option String := none
  fit_score : Option Int := none
  fit_rationale : Option PyJson := none
  fit_error : Option String := none
  fit_prompt : Option String := none
  fit_raw_response : Option String := none
  rerank_score : Option Rat := none
  following : Option Int := none
  business_email : Option String := none
  email_address : Option String := none

/- ------------------------------------------------------------------ -/
/- C1: search-stage dedup loop                                        -/
/- (`stages/weaviate_search_stage.py`, `_perform_multi_search`/`run`). -/
/- ------------------------------------------------------------------ -/

/-- The dedupe key computed inside `_perform_multi_search`:
`(profile.lance_db_id or "").strip()`, and when that is empty,
`(profile.username or profile.account or profile.profile_url or "").strip()`.
Note this is case-SENSITIVE and tries `username`/`account` before
`profile_url`. -/
def searchDedupeKey (p : CreatorProfile) : String :=
  let k := pyStrip (p.lance_db_id.getD "")
  if k ≠ "" then k
  else pyStrip (pyOr2 (p.username.getD "") (pyOr2 p.account (p.profile_url.getD "")))

/-- The dedup identity as worded by the SPEC (for refutation only):
`lanceDbId`, else the case-insensitively normalized `profileUrl`, else the
case-insensitively normalized `account`/`username`. -/
def specAccountIdentity (p : CreatorProfile) : String :=
  pyLower (pyStrip (pyOr2 p.account (p.username.getD "")))

/-- Spec-worded identity, continued: url tier then account tier. -/
def specUrlOrAccountIdentity (p : CreatorProfile) : String :=
  match p.profile_url with
  | some u => if pyStrip u ≠ "" then pyLower (pyStrip u) else specAccountIdentity p
  | none => specAccountIdentity p

/-- Spec-worded dedup identity (for refutation only): `lanceDbId` first,
else normalized `profileUrl`, else normalized `account`/`username`. -/
def specDedupIdentity (p : CreatorProfile) : String :=
  match p.lance_db_id with
  | some k => if pyStrip k ≠ "" then pyStrip k else specUrlOrAccountIdentity p
  | none => specUrlOrAccountIdentity p

/-- One iteration of the inner dedup loop of `_perform_multi_search`: a
mapped profile (`none` when `_weaviate_to_profile` failed) is kept iff its
dedupe key is non-empty and unseen. -/
def dedupStep (acc : List String × List CreatorProfile) (obj : Option CreatorProfile) :
    List String × List CreatorProfile :=
  match obj with
  | none => acc
  | some profile =>
      let k := searchDedupeKey profile
      if k = "" then acc
      else if k ∈ acc.1 then acc
      else (k :: acc.1, acc.2 ++ [profile])

/-- `_perform_multi_search`, parametrised by the mapped result batches:
one inner list per `(query, alpha)` hybrid-search call, in call order,
each element being `_weaviate_to_profile` of one returned object (queries
that were skipped for an empty string or a failed embedding simply
contribute no batch). -/
def performMultiSearch (batches : List (List (Option CreatorProfile))) : List CreatorProfile :=
  (batches.foldl (fun acc batch => batch.foldl dedupStep acc) ([], [])).2

/-- Descending comparison on `combined_score` used by the final
`sorted(..., reverse=True)`. -/
def combinedGt (y x : CreatorProfile) : Bool := decide (x.combined_score < y.combined_score)

/-- `WeaviateSearchStage.run`, parametrised by the mapped search batches:
empty-query early return, multi-search dedup, stable descending sort on
`combined_score`, the `top_n` cut, then the `limit` cut. -/
def searchStageRun (query : String) (batches : List (List (Option CreatorProfile)))
    (topN limit : Nat) : List CreatorProfile :=
  if pyStrip query = "" then []
  else
    let results := performMultiSearch batches
    let sortedResults := sortDesc combinedGt results
    let topResults := sortedResults.take (min topN sortedResults.length)
    let limitValue := if limit = 0 then 1 else max 1 limit
    if topResults.isEmpty then [] else topResults.take limitValue

/-- Dedup-loop invariant: every kept profile's key is registered in the
seen-set, and kept profiles have pairwise distinct keys. -/
def DedupInv (acc : List String × List CreatorProfile) : Prop :=
  (∀ p ∈ acc.2, searchDedupeKey p ∈ acc.1) ∧
    List.Pairwise (fun a b => searchDedupeKey a ≠ searchDedupeKey b) acc.2

theorem dedupStep_inv {acc : List String × List CreatorProfile} {obj : Option CreatorProfile}
    (h : DedupInv acc) : DedupInv (dedupStep acc obj) := by
  obtain ⟨hmem, hpw⟩ := h
  cases obj with
  | none => exact ⟨hmem, hpw⟩
  | some profile =>
      by_cases hk : searchDedupeKey profile = ""
      · simpa [dedupStep, hk] using ⟨hmem, hpw⟩
      · by_cases hseen : searchDedupeKey profile ∈ acc.1
        · simpa [dedupStep, hk, hseen] using ⟨hmem, hpw⟩
        · refine ⟨?_, ?_⟩
          · intro p hp
            simp only [dedupStep, hk, hseen, if_false, if_neg] at hp ⊢
            rcases List.mem_append.mp hp with hp | hp
            · exact List.mem_cons_of_mem _ (hmem p hp)
            · simp only [List.mem_singleton] at hp
              subst hp
              exact List.mem_cons_self _ _
          · simp only [dedupStep, hk, hseen, if_false, if_neg]
            refine (List.pairwise_append).mpr ⟨hpw, List.pairwise_singleton _ _, ?_⟩
            intro a ha b hb
            simp only [List.mem_singleton] at hb
            subst hb
            intro hcontra
            exact hseen (hcontra ▸ hmem a ha)

theorem foldl_dedupStep_inv (l : List (Option CreatorProfile))
    {acc : List String × List CreatorProfile} (h : DedupInv acc) :
    DedupInv (l.foldl dedupStep acc) := by
  induction l generalizing acc with
  | nil => exact h
  | cons x xs ih => exact ih (dedupStep_inv h)

theorem foldl_batches_inv (batches : List (List (Option CreatorProfile)))
    {acc : List String × List CreatorProfile} (h : DedupInv acc) :
    DedupInv (batches.foldl (fun a batch => batch.foldl dedupStep a) acc) := by
  induction batches generalizing acc with
  | nil => exact h
  | cons b bs ih => exact ih (foldl_dedupStep_inv b h)

theorem performMultiSearch_pairwise (batches : List (List (Option CreatorProfile))) :
    List.Pairwise (fun a b => searchDedupeKey a ≠ searchDedupeKey b)
      (performMultiSearch batches) := by
  have h : DedupInv (batches.foldl (fun a batch => batch.foldl dedupStep a) ([], [])) :=
    foldl_batches_inv batches ⟨by simp, List.Pairwise.nil⟩
  exact h.2

/-- Profile used in the C1 refutation: no vector-store id, account
`alice`, stored url `https://instagram.com/x`. -/
def c1ProfileA : CreatorProfile :=
  { id := 1, account := "alice", profile_name := "Alice", followers := 100,
    avg_engagement := 0, business_category_name := "", business_address := "",
    biography := "", profile_url := some "https://instagram.com/x" }

/-- Second C1 profile: different account, same stored url. -/
def c1ProfileB : CreatorProfile :=
  { id := 2, account := "bob", profile_name := "Bob", followers := 100,
    avg_engagement := 0, business_category_name := "", business_address := "",
    biography := "", profile_url := some "https://instagram.com/x" }

/-- C1 counterexample: two profiles with no `lanceDbId` and the same
`profileUrl` — hence the same spec-worded dedup identity — but different
accounts both survive the Search Stage output, because the code keys the
dedup on `username or account or profile_url` (account first), not on the
url tier the claim states. -/
theorem C1_counterexample :
    searchStageRun "sf coffee" [[some c1ProfileA, some c1ProfileB]] 1000 20 =
        [c1ProfileA, c1ProfileB] ∧
      specDedupIdentity c1ProfileA = specDedupIdentity c1ProfileB ∧
      c1ProfileA.account ≠ c1ProfileB.account := by
  refine ⟨rfl, rfl, by decide⟩

/-- C1 (amended): no two profiles in a Search Stage output share the
dedupe key the code actually computes — `lance_db_id` (stripped) when
non-empty, else the first truthy of `username`, `account`, `profile_url`
(stripped, case-sensitively). -/
theorem C1_search_output_dedup (query : String)
    (batches : List (List (Option CreatorProfile))) (topN limit : Nat) :
    List.Pairwise (fun a b => searchDedupeKey a ≠ searchDedupeKey b)
      (searchStageRun query batches topN limit) := by
  unfold searchStageRun
  by_cases hq : pyStrip query = ""
  · simp [hq]
  · simp only [hq, if_false, if_neg]
    have hsym : ∀ {x y : CreatorProfile},
        searchDedupeKey x ≠ searchDedupeKey y → searchDedupeKey y ≠ searchDedupeKey x :=
      fun h => Ne.symm h
    have hres := performMultiSearch_pairwise batches
    have hsorted :
        List.Pairwise (fun a b => searchDedupeKey a ≠ searchDedupeKey b)
          (sortDesc combinedGt (performMultiSearch batches)) :=
      ((sortDesc_perm combinedGt (performMultiSearch batches)).pairwise_iff hsym).mpr hres
    have htop :
        List.Pairwise (fun a b => searchDedupeKey a ≠ searchDedupeKey b)
          ((sortDesc combinedGt (performMultiSearch batches)).take
            (min topN (sortDesc combinedGt (performMultiSearch batches)).length)) :=
      List.Pairwise.sublist
        (List.take_sublist (min topN (sortDesc combinedGt (performMultiSearch batches)).length)
          (sortDesc combinedGt (performMultiSearch batches))) hsorted
    by_cases he :
        ((sortDesc combinedGt (performMultiSearch batches)).take
          (min topN (sortDesc combinedGt (performMultiSearch batches)).length)).isEmpty
    · simp [he]
    · simp only [he, if_false, if_neg, Bool.false_eq_true]
      exact List.Pairwise.sublist (List.take_sublist _ _) htop

/- ------------------------------------------------------------------ -/
/- C3: enrichment record application                                  -/
/- (`stages/brightdata_stage.py`, `_apply_record`, `_profile_url`).   -/
/- ------------------------------------------------------------------ -/

/-- `str.lstrip("@")`. -/
def atStrip (s : String) : String := ⟨s.data.dropWhile (fun c => c == '@')⟩

/-- `_profile_url` from `stages/brightdata_stage.py`: the stored
`profile_url` when truthy after stripping, else a URL synthesised from the
handle; `tiktok` gets a `/@handle` path, every other platform (including
non-instagram ones) gets an instagram URL. -/
def profileUrlOf (p : CreatorProfile) : Option String :=
  let stored := pyStrip (p.profile_url.getD "")
  if stored ≠ "" then some stored
  else
    let handle := atStrip (pyStrip (pyOr2 (p.username.getD "") p.account))
    if handle = "" then none
    else if pyLower (p.platform.getD "") = "tiktok" then
      some ("https://www.tiktok.com/@" ++ handle)
    else some ("https://instagram.com/" ++ handle)

/-- `record.get("followers") not in (None, "")`. -/
def notNoneNotEmpty (v : PyJson) : Bool :=
  match v with
  | .null => false
  | .str s => s ≠ ""
  | _ => true

/-- The biography branch of `_apply_record`: set iff the record carries a
string whose strip is non-empty. -/
def newBiography (p : CreatorProfile) (r : Record) : String :=
  match r.get "biography" with
  | .str s => if pyStrip s ≠ "" then pyStrip s else p.biography
  | _ => p.biography

/-- The followers branch: `int(float(followers))`, skipped on None/"" or a
parse failure. -/
def newFollowers (p : CreatorProfile) (r : Record) : Int :=
  let v := r.get "followers"
  if notNoneNotEmpty v then
    match pyFloatInt v with
    | some n => n
    | none => p.followers
  else p.followers

/-- The following branch, same shape as followers. -/
def newFollowing (p : CreatorProfile) (r : Record) : Option Int :=
  let v := r.get "following"
  if notNoneNotEmpty v then
    match pyFloatInt v with
    | some n => some n
    | none => p.following
  else p.following

/-- The posts branch: `record.get("posts") or record.get("posts_json")`,
stored only when truthy. -/
def newPostsRaw (p : CreatorProfile) (r : Record) : Option PyJson :=
  let v := pyOrJ (r.get "posts") (r.get "posts_json")
  if pyTruthy v then some v else p.posts_raw

/-- The profile-image branch (link field): truthy
`profile_image_url or profile_image_link`. -/
def newProfileImageLink (p : CreatorProfile) (r : Record) : PyJson :=
  let v := pyOrJ (r.get "profile_image_url") (r.get "profile_image_link")
  if pyTruthy v then v else p.profile_image_link

/-- The profile-image branch (url field), written together with the link
field in the source. -/
def newProfileImageUrl (p : CreatorProfile) (r : Record) : Option PyJson :=
  let v := pyOrJ (r.get "profile_image_url") (r.get "profile_image_link")
  if pyTruthy v then some v else p.profile_image_url

/-- The profile-url branch: `profile_url or url`, set iff a string with a
non-empty strip. -/
def newProfileUrl (p : CreatorProfile) (r : Record) : Option String :=
  match pyOrJ (r.get "profile_url") (r.get "url") with
  | .str s => if pyStrip s ≠ "" then some (pyStrip s) else p.profile_url
  | _ => p.profile_url

/-- The business-email branch: `business_email or email_address`, set on
ANY string value — including the empty string (no emptiness guard here,
unlike every other branch). -/
def newBusinessEmail (p : CreatorProfile) (r : Record) : Option String :=
  match pyOrJ (r.get "business_email") (r.get "email_address") with
  | .str s => some s
  | _ => p.business_email

/-- The email-address branch: same guard-free assignment. -/
def newEmailAddress (p : CreatorProfile) (r : Record) : Option String :=
  match r.get "email_address" with
  | .str s => some s
  | _ => p.email_address

/-- `_apply_record` from `stages/brightdata_stage.py`.  The source mutates
the profile field by field in sequence; no branch reads a profile field
that another branch writes, so the simultaneous update below is
equivalent to the sequential one. -/
def applyRecord (p : CreatorProfile) (r : Record) : CreatorProfile :=
  { p with
    biography := newBiography p r
    followers := newFollowers p r
    following := newFollowing p r
    posts_raw := newPostsRaw p r
    profile_image_link := newProfileImageLink p r
    profile_image_url := newProfileImageUrl p r
    profile_url := newProfileUrl p r
    business_email := newBusinessEmail p r
    email_address := newEmailAddress p r }

/-- Profile used in the C3 refutation: it already has a business email. -/
def c3Profile : CreatorProfile :=
  { id := 3, account := "carol", profile_name := "Carol", followers := 500,
    avg_engagement := 0, business_category_name := "", business_address := "",
    biography := "pastry chef", business_email := some "carol@shop.com" }

/-- Upstream record used in the C3 refutation: it supplies only an EMPTY
email field. -/
def c3Record : Record := [("email_address", PyJson.str "")]

/-- C3 counterexample: the enrichable field "business email" held the
non-empty value `carol@shop.com`; the upstream record supplies the empty
value `""` for its email field; `_apply_record` overwrites the non-empty
email with the empty string (`business_email = record.get("business_email")
or record.get("email_address")` evaluates to `""`, and the `isinstance(...,
str)` guard has no emptiness check). -/
theorem C3_counterexample :
    c3Profile.business_email = some "carol@shop.com" ∧
      (applyRecord c3Profile c3Record).business_email = some "" := ⟨rfl, rfl⟩

/-- C3 (amended): for every enrichable field EXCEPT the business email —
biography, followers, following, posts payload, profile image link,
profile URL — an upstream record supplying an empty or missing value
leaves the field unchanged; the business-email field, by contrast, is
overwritten by any string value including the empty string (see the
counterexample). -/
theorem C3_enrichment_non_regression (p : CreatorProfile) (r : Record) :
    ((r.get "biography" = .null ∨ r.get "biography" = .str "") →
        (applyRecord p r).biography = p.biography) ∧
      ((r.get "followers" = .null ∨ r.get "followers" = .str "") →
        (applyRecord p r).followers = p.followers) ∧
      ((r.get "following" = .null ∨ r.get "following" = .str "") →
        (applyRecord p r).following = p.following) ∧
      (pyTruthy (r.get "posts") = false → pyTruthy (r.get "posts_json") = false →
        (applyRecord p r).posts_raw = p.posts_raw) ∧
      (pyTruthy (r.get "profile_image_url") = false →
        pyTruthy (r.get "profile_image_link") = false →
        (applyRecord p r).profile_image_link = p.profile_image_link ∧
          (applyRecord p r).profile_image_url = p.profile_image_url) ∧
      ((r.get "profile_url" = .null ∨ r.get "profile_url" = .str "") →
        (r.get "url" = .null ∨ r.get "url" = .str "") →
        (applyRecord p r).profile_url = p.profile_url) := by
  refine ⟨?_, ?_, ?_, ?_, ?_, ?_⟩
  · rintro (h | h) <;>
      simp [applyRecord, newBiography, h, show pyStrip "" = "" from rfl]
  · rintro (h | h) <;> simp [applyRecord, newFollowers, h, notNoneNotEmpty]
  · rintro (h | h) <;> simp [applyRecord, newFollowing, h, notNoneNotEmpty]
  · intro h1 h2
    simp [applyRecord, newPostsRaw, pyOrJ, h1, h2]
  · intro h1 h2
    constructor
    · simp [applyRecord, newProfileImageLink, pyOrJ, h1, h2]
    · simp [applyRecord, newProfileImageUrl, pyOrJ, h1, h2]
  · rintro (h1 | h1) (h2 | h2) <;>
      simp [applyRecord, newProfileUrl, pyOrJ, pyTruthy, h1, h2,
        show pyStrip "" = "" from rfl]

/-- Profile for the C3 witness. -/
def c3wProfile : CreatorProfile :=
  { id := 4, account := "dina", profile_name := "Dina", followers := 9,
    avg_engagement := 0, business_category_name := "", business_address := "",
    biography := "baker", following := some 7, posts_raw := some (.str "[]"),
    profile_url := some "https://instagram.com/dina" }

/-- C3 witness: against an upstream record carrying an empty string for
every enrichable field, all six protected fields stay unchanged. -/
theorem C3_enrichment_non_regression_witness :
    (applyRecord c3wProfile
        [("biography", PyJson.str ""), ("followers", PyJson.str ""),
          ("following", PyJson.str ""), ("posts", PyJson.str ""),
          ("posts_json", PyJson.str ""), ("profile_image_url", PyJson.str ""),
          ("profile_image_link", PyJson.str ""), ("profile_url", PyJson.str ""),
          ("url", PyJson.str "")]).biography = c3wProfile.biography ∧
      (applyRecord c3wProfile
        [("biography", PyJson.str ""), ("followers", PyJson.str ""),
          ("following", PyJson.str ""), ("posts", PyJson.str ""),
          ("posts_json", PyJson.str ""), ("profile_image_url", PyJson.str ""),
          ("profile_image_link", PyJson.str ""), ("profile_url", PyJson.str ""),
          ("url", PyJson.str "")]).followers = c3wProfile.followers ∧
      (applyRecord c3wProfile
        [("biography", PyJson.str ""), ("followers", PyJson.str ""),
          ("following", PyJson.str ""), ("posts", PyJson.str ""),
          ("posts_json", PyJson.str ""), ("profile_image_url", PyJson.str ""),
          ("profile_image_link", PyJson.str ""), ("profile_url", PyJson.str ""),
          ("url", PyJson.str "")]).profile_url = c3wProfile.profile_url := by
  refine ⟨?_, ?_, ?_⟩
  · exact (C3_enrichment_non_regression c3wProfile _).1 (Or.inr rfl)
  · exact (C3_enrichment_non_regression c3wProfile _).2.1 (Or.inr rfl)
  · exact (C3_enrichment_non_regression c3wProfile _).2.2.2.2.2 (Or.inr rfl) (Or.inr rfl)

/- ------------------------------------------------------------------ -/
/- C2 / C8 / C10: LLM fit scoring                                     -/
/- (`post_filter/profile_fit.py`, `stages/llm_fit_stage.py`).         -/
/- ------------------------------------------------------------------ -/

/-- `dict.get(key, default)`: stored value (even a JSON null) if the key
is present, else the default. -/
def Record.getD (r : Record) (k : String) (d : PyJson) : PyJson :=
  match List.lookup k r with
  | some v => v
  | none => d

/-- Python `a or b` on optional strings (`None` and `""` falsy). -/
def orOptStr (a b : Option String) : Option String :=
  match a with
  | some s => if s ≠ "" then some s else b
  | none => b

/-- `_best_profile_url` from `stages/llm_fit_stage.py`: the stored url
when truthy, else a url synthesised from the handle (tiktok path for the
tiktok platform, instagram path otherwise). -/
def bestProfileUrl (p : CreatorProfile) : Option String :=
  match p.profile_url with
  | some u =>
      if u ≠ "" then some u
      else bestProfileUrlFromHandle p
  | none => bestProfileUrlFromHandle p
where
  bestProfileUrlFromHandle (p : CreatorProfile) : Option String :=
    let handle := atStrip (pyStrip (pyOr2 (p.username.getD "") p.account))
    if handle = "" then none
    else if pyLower (p.platform.getD "") = "tiktok" then
      some ("https://www.tiktok.com/@" ++ handle)
    else some ("https://instagram.com/" ++ handle)

/-- The per-profile document dict built by `LLMFitStage.run` (the
`parsed_posts` augmentation of `build_profile_documents` only feeds the
prompt text, which the scoring oracle abstracts). -/
structure FitDoc where
  account : String
  profile_url : Option String
  followers : Int
  biography : String
  profile_name : String
  business_category_name : String
  category_name : String
  is_verified : Option Bool
  posts : Option PyJson

/-- The document `LLMFitStage.run` builds for each profile. -/
def toFitDoc (p : CreatorProfile) : FitDoc :=
  { account := p.account
    profile_url := orOptStr p.profile_url (bestProfileUrl p)
    followers := p.followers
    biography := p.biography
    profile_name := p.profile_name
    business_category_name := p.business_category_name
    category_name := p.business_category_name
    is_verified := p.is_verified
    posts := p.posts_raw }

/-- `ProfileFitResult` from `post_filter/profile_fit.py` (the prompt and
raw-response carrier fields are not modelled: they hold only the prompt
text, which no claim mentions). -/
structure ProfileFitResult where
  account : String
  profile_url : Option String
  followers : Int
  score : Option Int
  rationale : PyJson
  error : Option String

/-- `profile.get("profile_url") or profile.get("url")` on a fit document
(the built documents never carry a `url` key). -/
def fitDocUrl (doc : FitDoc) : Option String := orOptStr doc.profile_url none

/-- One attempt of the `while attempts < 3` loop body in `_score_profile`:
the oracle yields the composed outcome of `_call_openai` + `json.loads`
(exception message or parsed value); then
`int(parsed.get("score"))` (raising on a non-convertible value, `None`
when the score is null/missing), the `max(1, min(10, score))` clamp, and
`parsed.get("rationale", "")`. -/
def attemptScore : Except String PyJson → Except String (Option Int × PyJson)
  | .error e => .error e
  | .ok parsed =>
      match parsed with
      | .obj kvs =>
          match Record.get kvs "score" with
          | .null => .ok (none, Record.getD kvs "rationale" (.str ""))
          | sv =>
              match pyToInt sv with
              | some n => .ok (some (max 1 (min 10 n)), Record.getD kvs "rationale" (.str ""))
              | none => .error "invalid literal for int()"
      | _ => .error "AttributeError: object has no attribute get"

/-- The retry loop of `_score_profile`: up to 3 attempts, tracking the
last error; on exhaustion `score = None`, `error = last_error`,
`rationale = "error: " + last_error`. -/
def scoreProfileGo (doc : FitDoc) (oracle : Nat → Except String PyJson) :
    Nat → Nat → Option String → ProfileFitResult
  | 0, _, lastErr =>
      { account := doc.account, profile_url := fitDocUrl doc, followers := doc.followers,
        score := none,
        rationale := .str ("error: " ++ (match lastErr with | some e => e | none => "None")),
        error := lastErr }
  | fuel + 1, i, lastErr =>
      match attemptScore (oracle i) with
      | .ok (s, rat) =>
          { account := doc.account, profile_url := fitDocUrl doc, followers := doc.followers,
            score := s, rationale := rat, error := none }
      | .error e => scoreProfileGo doc oracle fuel (i + 1) (some e)

/-- `_score_profile`, parametrised by the attempt oracle. -/
def scoreProfile (doc : FitDoc) (oracle : Nat → Except String PyJson) : ProfileFitResult :=
  scoreProfileGo doc oracle 3 0 none

/-- `_fit_key` from `stages/llm_fit_stage.py`. -/
def fitKey (fit : ProfileFitResult) : Option String :=
  if fit.account ≠ "" then some (pyLower (pyStrip fit.account))
  else
    match fit.profile_url with
    | some u => if u ≠ "" then some (pyLower (pyStrip u)) else none
    | none => none

/-- `_normalized_profile_key` from `stages/llm_fit_stage.py`. -/
def normalizedProfileKeyLLM (p : CreatorProfile) : Option String :=
  if p.account ≠ "" then some (pyLower (pyStrip p.account))
  else if (p.profile_url.getD "") ≠ "" then some (pyLower (pyStrip (p.profile_url.getD "")))
  else if (p.username.getD "") ≠ "" then some (pyLower (pyStrip (p.username.getD "")))
  else none

/-- The `fit_map` dict: keyed results, later insertions winning on key
collisions (`fit_map[key] = fit`); lookup finds the newest entry first. -/
def buildFitMap (results : List ProfileFitResult) : List (String × ProfileFitResult) :=
  results.foldl
    (fun m fit =>
      match fitKey fit with
      | some k => (k, fit) :: m
      | none => m)
    []

/-- Dict lookup on the fit map (first = newest match). -/
def lookupFit : List (String × ProfileFitResult) → String → Option ProfileFitResult
  | [], _ => none
  | (k, v) :: rest, key => if k = key then some v else lookupFit rest key

/-- The merge-back branch that clears every annotation when a profile has
no scoring result. -/
def clearFit (p : CreatorProfile) : CreatorProfile :=
  { p with
    fit_score := none
    fit_rationale := none
    fit_error := none
    fit_prompt := none
    fit_raw_response := none }

/-- The per-profile merge-back of `LLMFitStage.run` (lines writing
`profile.fit_score` etc.; the prompt/raw-response carriers are not
modelled). -/
def applyFitTo (p : CreatorProfile) (fitMap : List (String × ProfileFitResult)) :
    CreatorProfile :=
  match normalizedProfileKeyLLM p with
  | some k =>
      match lookupFit fitMap k with
      | some fit =>
          { p with
            fit_score := fit.score
            fit_rationale := some fit.rationale
            fit_error := fit.error
            fit_prompt := none
            fit_raw_response := none }
      | none => clearFit p
  | none => clearFit p

/-- Descending comparison on `((fit_score or 0), combined_score)` used by
the final re-sort. -/
def fitSortGt (y x : CreatorProfile) : Bool :=
  decide (x.fit_score.getD 0 < y.fit_score.getD 0) ||
    (decide (x.fit_score.getD 0 = y.fit_score.getD 0) &&
      decide (x.combined_score < y.combined_score))

/-- `LLMFitStage.run`, parametrised by the scoring oracle (`oracle i k` is
the outcome of attempt `k` for document `i`).  The thread pool gathers
results in completion order; that order only decides which result wins a
fit-map key collision and is modelled as submission order. -/
def llmFitRun (profiles : List CreatorProfile) (businessFitQuery : String)
    (oracle : Nat → Nat → Except String PyJson) : Except String (List CreatorProfile) :=
  if businessFitQuery = "" then .error "business_fit_query is required for LLM fit stage"
  else if profiles.isEmpty then .ok []
  else
    let documents := profiles.map toFitDoc
    let results := mapWithIdx (fun i doc => scoreProfile doc (oracle i)) 0 documents
    let fitMap := buildFitMap results
    let merged := profiles.map (fun p => applyFitTo p fitMap)
    .ok (sortDesc fitSortGt merged)

theorem attemptScore_ok_bounds {o : Except String PyJson} {s : Int} {rat : PyJson}
    (h : attemptScore o = .ok (some s, rat)) : 1 ≤ s ∧ s ≤ 10 := by
  cases o with
  | error e => simp [attemptScore] at h
  | ok parsed =>
      cases parsed with
      | obj kvs =>
          rw [attemptScore.eq_def] at h
          simp only [] at h
          cases hsv : Record.get kvs "score" with
          | null => rw [hsv] at h; simp at h
          | bool b =>
              rw [hsv] at h
              cases hn : pyToInt (.bool b) with
              | none => simp [hn] at h
              | some n =>
                  simp [hn] at h
                  obtain ⟨hs, -⟩ := h
                  omega
          | num m =>
              rw [hsv] at h
              cases hn : pyToInt (.num m) with
              | none => simp [hn] at h
              | some n =>
                  simp [hn] at h
                  obtain ⟨hs, -⟩ := h
                  omega
          | str t =>
              rw [hsv] at h
              cases hn : pyToInt (.str t) with
              | none => simp [hn] at h
              | some n =>
                  simp [hn] at h
                  obtain ⟨hs, -⟩ := h
                  omega
          | arr xs =>
              rw [hsv] at h
              cases hn : pyToInt (.arr xs) with
              | none => simp [hn] at h
              | some n =>
                  simp [hn] at h
                  obtain ⟨hs, -⟩ := h
                  omega
          | obj kv2 =>
              rw [hsv] at h
              cases hn : pyToInt (.obj kv2) with
              | none => simp [hn] at h
              | some n =>
                  simp [hn] at h
                  obtain ⟨hs, -⟩ := h
                  omega
      | null => simp [attemptScore] at h
      | bool b => simp [attemptScore] at h
      | num n => simp [attemptScore] at h
      | str t => simp [attemptScore] at h
      | arr xs => simp [attemptScore] at h

theorem scoreProfileGo_bounds (doc : FitDoc) (oracle : Nat → Except String PyJson)
    (fuel i : Nat) (lastErr : Option String) {s : Int}
    (h : (scoreProfileGo doc oracle fuel i lastErr).score = some s) : 1 ≤ s ∧ s ≤ 10 := by
  induction fuel generalizing i lastErr with
  | zero => simp [scoreProfileGo] at h
  | succ fuel ih =>
      rw [scoreProfileGo] at h
      cases ha : attemptScore (oracle i) with
      | ok pr =>
          obtain ⟨sc, rat⟩ := pr
          rw [ha] at h
          simp only [] at h
          cases sc with
          | none => simp at h
          | some n =>
              simp at h
              subst h
              exact attemptScore_ok_bounds ha
      | error e =>
          rw [ha] at h
          exact ih _ _ h

theorem lookupFit_mem {m : List (String × ProfileFitResult)} {k : String}
    {fit : ProfileFitResult} (h : lookupFit m k = some fit) : (k, fit) ∈ m := by
  induction m with
  | nil => simp [lookupFit] at h
  | cons kv rest ih =>
      obtain ⟨k0, v0⟩ := kv
      by_cases hk : k0 = k
      · subst hk
        simp [lookupFit] at h
        simp [h]
      · simp [lookupFit, hk] at h
        exact List.mem_cons_of_mem _ (ih h)

theorem buildFitMap_mem {results : List ProfileFitResult}
    {kv : String × ProfileFitResult} (h : kv ∈ buildFitMap results) : kv.2 ∈ results := by
  have general :
      ∀ (rs : List ProfileFitResult) (m0 : List (String × ProfileFitResult)),
        kv ∈ rs.foldl
          (fun m fit =>
            match fitKey fit with
            | some k => (k, fit) :: m
            | none => m) m0 →
        kv ∈ m0 ∨ kv.2 ∈ rs := by
    intro rs
    induction rs with
    | nil => intro m0 h0; exact Or.inl h0
    | cons fit rest ih =>
        intro m0 h0
        simp only [List.foldl_cons] at h0
        rcases ih _ h0 with hin | hin
        · cases hf : fitKey fit with
          | some k =>
              rw [hf] at hin
              rcases List.mem_cons.mp hin with hin | hin
              · refine Or.inr ?_
                rw [hin]
                exact List.mem_cons_self _ _
              · exact Or.inl hin
          | none =>
              rw [hf] at hin
              exact Or.inl hin
        · exact Or.inr (List.mem_cons_of_mem _ hin)
  rcases general results [] h with h0 | h0
  · simp at h0
  · exact h0

theorem applyFitTo_score_cases (p : CreatorProfile)
    (m : List (String × ProfileFitResult)) :
    (applyFitTo p m).fit_score = none ∨
      ∃ k fit, normalizedProfileKeyLLM p = some k ∧ lookupFit m k = some fit ∧
        (applyFitTo p m).fit_score = fit.score := by
  unfold applyFitTo
  cases hk : normalizedProfileKeyLLM p with
  | none => simp [clearFit]
  | some k =>
      cases hl : lookupFit m k with
      | none => simp [hl, clearFit]
      | some fit =>
          refine Or.inr ⟨k, fit, rfl, hl, ?_⟩
          simp [hl]

/-- C2 counterexample profile. -/
def c2Profile : CreatorProfile :=
  { id := 5, account := "alice", profile_name := "Alice", followers := 1000,
    avg_engagement := 0, business_category_name := "", business_address := "",
    biography := "coffee person" }

/-- C2 counterexample oracle: every call parses cleanly to a JSON object
that carries a rationale but NO score field. -/
def c2Oracle : Nat → Nat → Except String PyJson :=
  fun _ _ => .ok (.obj [("rationale", PyJson.str "looks good")])

/-- C2 expected stage output profile. -/
def c2Expected : CreatorProfile :=
  { c2Profile with
    fit_score := none
    fit_rationale := some (PyJson.str "looks good")
    fit_error := none }

/-- C2 counterexample: a reply that parses to a JSON object whose score is
missing yields an UNSCORED profile (`fitScore = null`) whose `fitError` is
ALSO null — `int(parsed.get("score")) if ... else None` succeeds with
`None` and no exception is recorded — contradicting the claim that
unscored profiles have non-null `fitError`. -/
theorem C2_counterexample :
    llmFitRun [c2Profile] "sustainable coffee brand" c2Oracle = .ok [c2Expected] ∧
      c2Expected.fit_score = none ∧ c2Expected.fit_error = none :=
  ⟨rfl, rfl, rfl⟩

/-- C2 (amended): (1) every profile in the Fit-Scoring Stage output that
carries a score has `1 ≤ fitScore ≤ 10`; (2) a profile whose three scoring
attempts all raised ends with `fitScore = null`, `fitError = <last
error>` and `fitRationale = "error: <last error>"`.  (The claim's stronger
form — every unscored profile has non-null `fitError` — is refuted by the
counterexample: a parsed reply with a missing/null score leaves both
null.) -/
theorem C2_fit_score_contract :
    (∀ (profiles : List CreatorProfile) (q : String)
        (oracle : Nat → Nat → Except String PyJson) (out : List CreatorProfile)
        (p : CreatorProfile) (s : Int),
        llmFitRun profiles q oracle = .ok out → p ∈ out → p.fit_score = some s →
        1 ≤ s ∧ s ≤ 10) ∧
      (∀ (doc : FitDoc) (oracle : Nat → Except String PyJson) (e0 e1 e2 : String),
        attemptScore (oracle 0) = .error e0 → attemptScore (oracle 1) = .error e1 →
        attemptScore (oracle 2) = .error e2 →
        (scoreProfile doc oracle).score = none ∧
          (scoreProfile doc oracle).error = some e2 ∧
          (scoreProfile doc oracle).rationale = .str ("error: " ++ e2)) := by
  constructor
  · intro profiles q oracle out p s hrun hp hscore
    by_cases hq : q = ""
    · simp [llmFitRun, hq] at hrun
    · by_cases hne : profiles.isEmpty = true
      · simp [llmFitRun, hq, hne] at hrun
        subst hrun
        simp at hp
      · simp only [llmFitRun, hq, hne, if_false, if_neg, Bool.false_eq_true,
          Except.ok.injEq] at hrun
        subst hrun
        have hmem : p ∈ profiles.map
            (fun p0 => applyFitTo p0 (buildFitMap
              (mapWithIdx (fun i doc => scoreProfile doc (oracle i)) 0
                (profiles.map toFitDoc)))) :=
          ((sortDesc_perm fitSortGt _).mem_iff).mp hp
        obtain ⟨p0, -, hp0⟩ := List.mem_map.mp hmem
        rcases applyFitTo_score_cases p0
            (buildFitMap (mapWithIdx (fun i doc => scoreProfile doc (oracle i)) 0
              (profiles.map toFitDoc))) with hnone | ⟨k, fit, -, hl, heq⟩
        · rw [← hp0, hnone] at hscore
          simp at hscore
        · rw [← hp0, heq] at hscore
          have hfit : fit ∈ mapWithIdx (fun i doc => scoreProfile doc (oracle i)) 0
              (profiles.map toFitDoc) :=
            buildFitMap_mem (lookupFit_mem hl)
          obtain ⟨j, doc, -, hfd⟩ := mem_mapWithIdx hfit
          rw [hfd] at hscore
          exact scoreProfileGo_bounds doc (oracle j) 3 0 none hscore
  · intro doc oracle e0 e1 e2 h0 h1 h2
    simp [scoreProfile, scoreProfileGo, h0, h1, h2]

/-- C2 witness document. -/
def c2wDoc : FitDoc :=
  { account := "frank", profile_url := none, followers := 10, biography := "",
    profile_name := "", business_category_name := "", category_name := "",
    is_verified := none, posts := none }

/-- C2 witness profile (scored 7 by the oracle). -/
def c2wProfile : CreatorProfile :=
  { id := 6, account := "frank", profile_name := "Frank", followers := 10,
    avg_engagement := 0, business_category_name := "", business_address := "",
    biography := "" }

/-- C2 witness oracle: scores every profile 7. -/
def c2wOracle : Nat → Nat → Except String PyJson :=
  fun _ _ => .ok (.obj [("score", PyJson.num 7)])

/-- C2 witness expected output profile. -/
def c2wExpected : CreatorProfile :=
  { c2wProfile with
    fit_score := some 7
    fit_rationale := some (PyJson.str "")
    fit_error := none }

/-- C2 witness: part (1) applied to a concrete run whose oracle scores 7 —
the output score is in range; part (2) applied to an always-raising
oracle — score null, last error recorded. -/
theorem C2_fit_score_contract_witness :
    (1 ≤ (7 : Int) ∧ (7 : Int) ≤ 10) ∧
      ((scoreProfile c2wDoc (fun _ => .error "boom")).score = none ∧
        (scoreProfile c2wDoc (fun _ => .error "boom")).error = some "boom" ∧
        (scoreProfile c2wDoc (fun _ => .error "boom")).rationale =
          .str ("error: " ++ "boom")) := by
  constructor
  · exact C2_fit_score_contract.1 [c2wProfile] "query" c2wOracle [c2wExpected]
      c2wExpected 7 rfl (List.mem_singleton.mpr rfl) rfl
  · exact C2_fit_score_contract.2 c2wDoc (fun _ => .error "boom") "boom" "boom" "boom"
      rfl rfl rfl

/-- C8: invoking the Fit-Scoring Stage with an empty `businessFitQuery`
raises the precondition `ValueError` immediately: the result is the same
error for EVERY scoring oracle and profile list (so no LLM call can have
been made and no profile is scored or modified), and no output list is
produced. -/
theorem C8_empty_query_precondition (profiles : List CreatorProfile)
    (oracle : Nat → Nat → Except String PyJson) :
    llmFitRun profiles "" oracle =
      .error "business_fit_query is required for LLM fit stage" := rfl

/-- C10: whenever attempt `i` (of the at-most-3) is the first to not
raise, and its reply parses to a JSON object whose `score` field is an
integer `s`, `_score_profile` records exactly `max(1, min(10, s))` — an
out-of-range model score is silently clamped into `[1, 10]`. -/
theorem C10_score_clamped (doc : FitDoc) (oracle : Nat → Except String PyJson)
    (i : Nat) (hi : i < 3)
    (hfail : ∀ j, j < i → ∃ e, attemptScore (oracle j) = .error e)
    (kvs : Record) (hok : oracle i = .ok (.obj kvs)) (s : Int)
    (hscore : Record.get kvs "score" = .num s) :
    (scoreProfile doc oracle).score = some (max 1 (min 10 s)) := by
  have hatt : attemptScore (oracle i) =
      .ok (some (max 1 (min 10 s)), Record.getD kvs "rationale" (.str "")) := by
    rw [hok]
    rw [attemptScore.eq_def]
    simp only []
    rw [hscore]
    simp [pyToInt]
  interval_cases i
  · simp [scoreProfile, scoreProfileGo, hatt]
  · obtain ⟨ea, h0⟩ := hfail 0 (by omega)
    simp [scoreProfile, scoreProfileGo, h0, hatt]
  · obtain ⟨ea, h0⟩ := hfail 0 (by omega)
    obtain ⟨eb, h1⟩ := hfail 1 (by omega)
    simp [scoreProfile, scoreProfileGo, h0, h1, hatt]

/-- C10 witness doc. -/
def c10Doc : FitDoc :=
  { account := "erin", profile_url := none, followers := 5, biography := "",
    profile_name := "", business_category_name := "", category_name := "",
    is_verified := none, posts := none }

/-- C10 witness: a first-attempt reply of `score = 15` is recorded as 10. -/
theorem C10_score_clamped_witness :
    (scoreProfile c10Doc (fun _ => .ok (.obj [("score", PyJson.num 15)]))).score =
      some 10 := by
  have h := C10_score_clamped c10Doc (fun _ => .ok (.obj [("score", PyJson.num 15)]))
    0 (by omega) (fun j hj => absurd hj (by omega)) [("score", PyJson.num 15)] rfl 15 rfl
  simpa using h

/- ------------------------------------------------------------------ -/
/- C6: rerank degradation                                             -/
/- (`stages/rerank_stage.py`, `services/rerank_client.py`).           -/
/- ------------------------------------------------------------------ -/

/-- Python `str(value)` on a parsed JSON value.  Scalars are exact; for
containers the element text is joined without Python's nested quoting —
the resulting text only ever forms the rerank request document, which is
oracle input inspected by no claim. -/
def pyToStr : PyJson → String
  | .null => "None"
  | .bool b => cond b "True" "False"
  | .num n => toString n
  | .str s => s
  | .arr xs => "[" ++ String.intercalate ", " (xs.attach.map (fun x => pyToStr x.1)) ++ "]"
  | .obj kvs =>
      "\x7b" ++
        String.intercalate ", "
          (kvs.attach.map (fun kv => kv.1.1 ++ ": " ++ pyToStr kv.1.2)) ++ "\x7d"
decreasing_by
  · have := List.sizeOf_lt_of_mem x.2
    simp only [PyJson.arr.sizeOf_spec]
    omega
  · have h1 := List.sizeOf_lt_of_mem kv.2
    have h2 : sizeOf kv.1.2 < sizeOf kv.1 := by
      obtain ⟨⟨a, b⟩, hm⟩ := kv
      simp only [Prod.mk.sizeOf_spec]
      omega
    simp only [PyJson.obj.sizeOf_spec]
    omega

/-- `_normalize_text` over an optional string. -/
def normalizeText (v : Option String) : String :=
  match v with
  | none => ""
  | some s => pyStrip s

/-- `_normalize_text` over an optional raw JSON value (`str(value).strip()`
for non-strings). -/
def normalizeTextJ (v : Option PyJson) : String :=
  match v with
  | none => ""
  | some (.str s) => pyStrip s
  | some j => pyStrip (pyToStr j)

/-- `_doc_for` from `stages/rerank_stage.py`: the document string for one
candidate under the chosen mode, with the bio → profile text → profile
name → account fallback chain. -/
def docFor (p : CreatorProfile) (mode : String) : String :=
  let bio := pyStrip p.biography
  let profileText := pyOr2 (normalizeText p.profile_fts_source) bio
  let postsSource : Option PyJson :=
    match p.posts_fts_source with
    | some s => if s ≠ "" then some (.str s) else p.posts_raw
    | none => p.posts_raw
  let postsText := normalizeTextJ postsSource
  if mode = "bio" then pyOr2 bio (pyOr2 profileText (pyOr2 p.profile_name p.account))
  else if mode = "posts" then
    pyOr2 postsText (pyOr2 bio (pyOr2 profileText (pyOr2 p.profile_name p.account)))
  else
    let combined := String.intercalate " " ([bio, postsText].filter (fun s => s ≠ ""))
    pyOr2 combined (pyOr2 profileText (pyOr2 p.profile_name p.account))

/-- A Python exception escaping `RerankClient.rerank`: either the
`RerankError` the client itself raises, or any other exception (a
`requests` transport error from `session.post` — connection failure,
timeout — or a `response.json()` decode failure), which the client does
not catch. -/
inductive RerankExn where
  | rerankError (msg : String)
  | otherExn (msg : String)

/-- The observable outcome of the one `session.post` call in
`RerankClient.rerank`: `exn` when the call (or the subsequent
`response.json()` body decode) raised — such exceptions are NOT
`RerankError` — or `response` when an HTTP response was received, with
its status (`response.ok`) and parsed `scores` array
(`data.get("scores") or []`). -/
inductive RerankHttpOutcome where
  | exn (msg : String)
  | response (ok : Bool) (scores : List Rat)

/-- `RerankClient.rerank`: a raised transport/decode exception propagates
as itself (the client has no handler); a received non-ok HTTP status
(e.g. 500) raises `RerankError`; otherwise sort the enumerated scores
descending and take `max(1, min(top_k, len))` of them (`len` when
`top_k` is 0). -/
def rerankClientRerank (outcome : RerankHttpOutcome) (query : String)
    (documents : List String) (topK : Nat) : Except RerankExn (List (Nat × Rat)) :=
  match outcome with
  | .exn msg => .error (.otherExn msg)
  | .response ok scores =>
      if !ok then .error (.rerankError "Rerank request failed")
      else
        let ranking := sortDesc (fun y x => decide (x.2 < y.2))
          (mapWithIdx (fun i s => (i, s)) 0 scores)
        let k := if topK = 0 then ranking.length else max 1 (min topK ranking.length)
        .ok (ranking.take k)

/-- The `(idx, score)` consumption loop of `RerankStage.run`: skip
already-consumed or out-of-range indices, annotate the candidate with its
rerank score, collect in ranking order. -/
def rerankOrderLoop (subset : List CreatorProfile) :
    List (Nat × Rat) → List Nat → List CreatorProfile → List Nat × List CreatorProfile
  | [], seen, ordered => (seen, ordered)
  | (idx, score) :: rest, seen, ordered =>
      if idx ∈ seen then rerankOrderLoop subset rest seen ordered
      else
        match subset.get? idx with
        | none => rerankOrderLoop subset rest seen ordered
        | some c =>
            rerankOrderLoop subset rest (idx :: seen)
              (ordered ++ [{ c with rerank_score := some score }])

/-- `RerankStage.run`, parametrised by the HTTP outcome.  The result pair
is the run's outcome (`.ok` a returned profile list, `.error` an
exception escaping the run) together with the events the stage emitted
through its progress callback before returning or raising
(`f"{name}_SKIPPED" / _STARTED / _FAILED / _COMPLETED`).  The stage's
`except RerankError` handler catches ONLY `RerankError`; a transport or
decode exception from the client escapes the run with no `RERANK_FAILED`
event.  The identity-based remainder (`id(item) not in seen_ids`) is
modelled by list index, since the consumed candidates are exactly the
profiles at the consumed indices. -/
def rerankStageRun (profiles : List CreatorProfile) (query mode : String) (topK : Nat)
    (outcome : RerankHttpOutcome) :
    Except RerankExn (List CreatorProfile) × List String :=
  if profiles.isEmpty then (.ok [], ["RERANK_SKIPPED"])
  else
    let k := max 1 (min topK profiles.length)
    let subset := profiles.take k
    let docs := subset.map (fun p => docFor p mode)
    match rerankClientRerank outcome query docs k with
    | .error (.rerankError _) => (.ok profiles, ["RERANK_STARTED", "RERANK_FAILED"])
    | .error (.otherExn msg) => (.error (.otherExn msg), ["RERANK_STARTED"])
    | .ok ranking =>
        let consumed := rerankOrderLoop subset ranking [] []
        let reordered :=
          if consumed.2.isEmpty then profiles
          else
            consumed.2 ++
              ((mapWithIdx (fun i p => (i, p)) 0 profiles).filter
                (fun ip => ip.1 ∉ consumed.1)).map (fun ip => ip.2)
        (.ok reordered, ["RERANK_STARTED", "RERANK_COMPLETED"])

/-- Outcome of `execute_rerank_stage`'s try/except around
`_rerank_stage.run` (`functions/rerank_stage.py`): a normal return
proceeds to persist the stage document (`completed`); an exception first
persists a stage-failure document and an `error` pipeline status
(`record_stage_failure`) and then re-raises as an `HttpsError` with the
given code (`failedStage`) — the stage, and with it the pipeline run,
fails. -/
inductive ExecuteRerankResult where
  | completed (profiles : List CreatorProfile) (events : List String)
  | failedStage (errorCode : String) (events : List String)

/-- The error dispatch of `execute_rerank_stage`: `except RerankError` →
`HttpsError UNAVAILABLE`, `except Exception` → `HttpsError INTERNAL`
(both after `record_stage_failure`).  Since `RerankStage.run` itself
catches every `RerankError`, only the generic INTERNAL branch is
reachable from the run. -/
def executeRerankStage (profiles : List CreatorProfile) (query mode : String)
    (topK : Nat) (outcome : RerankHttpOutcome) : ExecuteRerankResult :=
  match rerankStageRun profiles query mode topK outcome with
  | (.ok ps, events) => .completed ps events
  | (.error (.rerankError _), events) => .failedStage "UNAVAILABLE" events
  | (.error (.otherExn _), events) => .failedStage "INTERNAL" events

/-- C6 profile. -/
def c6Profile : CreatorProfile :=
  { id := 7, account := "gina", profile_name := "Gina", followers := 50,
    avg_engagement := 0, business_category_name := "", business_address := "",
    biography := "hiker" }

/-- C6 counterexample: a TRANSPORT error (the `session.post` call raising
a `requests` connection error) is not a `RerankError`, so it escapes
`RerankStage.run`'s `except RerankError`: the run raises instead of
returning the original list, no `RERANK_FAILED` event is emitted, and
`execute_rerank_stage`'s generic handler records a stage failure and
raises `HttpsError INTERNAL` — the stage fails, contradicting the claim
for the transport half of "transport/HTTP error". -/
theorem C6_counterexample :
    rerankStageRun [c6Profile] "mountain gear" "bio+posts" 5
        (.exn "requests.exceptions.ConnectionError") =
      (.error (.otherExn "requests.exceptions.ConnectionError"), ["RERANK_STARTED"]) ∧
      executeRerankStage [c6Profile] "mountain gear" "bio+posts" 5
        (.exn "requests.exceptions.ConnectionError") =
      .failedStage "INTERNAL" ["RERANK_STARTED"] := ⟨rfl, rfl⟩

/-- C6 (amended): (1) when the rerank endpoint RETURNS an HTTP error
status (e.g. 500) — which raises `RerankError` inside the client —
`RerankStage.run` returns the original input profile list in its
original order, emits the `RERANK_FAILED` event through the progress
callback, and returns normally, so the pipeline does not fail; (2) a
transport exception from the HTTP call itself (connection error,
timeout, body-decode failure) is not a `RerankError`: it escapes the
run with no `RERANK_FAILED` event, and `execute_rerank_stage` records a
stage failure and raises `HttpsError INTERNAL` — the stage fails. -/
theorem C6_rerank_failure_modes (profiles : List CreatorProfile)
    (query mode : String) (topK : Nat) (hne : profiles ≠ []) :
    (∀ scores : List Rat,
        rerankStageRun profiles query mode topK (.response false scores) =
          (.ok profiles, ["RERANK_STARTED", "RERANK_FAILED"])) ∧
      (∀ msg : String,
        rerankStageRun profiles query mode topK (.exn msg) =
            (.error (.otherExn msg), ["RERANK_STARTED"]) ∧
          executeRerankStage profiles query mode topK (.exn msg) =
            .failedStage "INTERNAL" ["RERANK_STARTED"]) := by
  have hne2 : profiles.isEmpty = false := by
    cases profiles with
    | nil => exact absurd rfl hne
    | cons a as => rfl
  constructor
  · intro scores
    simp [rerankStageRun, rerankClientRerank, hne2]
  · intro msg
    constructor
    · simp [rerankStageRun, rerankClientRerank, hne2]
    · simp [executeRerankStage, rerankStageRun, rerankClientRerank, hne2]

/-- C6 witness: an HTTP 500 response (ok = false) on a one-profile input
returns that input unchanged with the failure event; a timeout on the
same input fails the stage with `INTERNAL`. -/
theorem C6_rerank_failure_modes_witness :
    rerankStageRun [c6Profile] "mountain gear" "bio+posts" 5 (.response false []) =
        (.ok [c6Profile], ["RERANK_STARTED", "RERANK_FAILED"]) ∧
      executeRerankStage [c6Profile] "mountain gear" "bio+posts" 5
          (.exn "requests.exceptions.Timeout") =
        .failedStage "INTERNAL" ["RERANK_STARTED"] := by
  constructor
  · exact (C6_rerank_failure_modes [c6Profile] "mountain gear" "bio+posts" 5
      (by simp)).1 []
  · exact ((C6_rerank_failure_modes [c6Profile] "mountain gear" "bio+posts" 5
      (by simp)).2 "requests.exceptions.Timeout").2

/- ------------------------------------------------------------------ -/
/- C7: query expansion (`services/query_expansion.py`).               -/
/- ------------------------------------------------------------------ -/

/-- The cleaning loop of `generate_queries`: keep string entries whose
strip is non-empty, case-insensitively deduplicated (first occurrence
keeps its original casing). -/
def cleanQueriesGo : List PyJson → List String → List String → List String
  | [], _, cleaned => cleaned
  | entry :: rest, seen, cleaned =>
      match entry with
      | .str s =>
          let text := pyStrip s
          if text ≠ "" then
            let normalized := pyLower text
            if normalized ∈ seen then cleanQueriesGo rest seen cleaned
            else cleanQueriesGo rest (normalized :: seen) (cleaned ++ [text])
          else cleanQueriesGo rest seen cleaned
      | _ => cleanQueriesGo rest seen cleaned

/-- `cleaned` as computed from one parsed reply. -/
def cleanQueries (parsed : List PyJson) : List String := cleanQueriesGo parsed [] []

/-- One attempt of the `while attempts < 3` loop in `generate_queries`
(`num_queries` is clamped to exactly 12 by the constructor): `some qs`
when the attempt returns (parsed to a JSON array, ≥ 12 unique cleaned
queries, truncated to 12), `none` when it raises and the loop retries
(call failure, parse failure, non-array reply, or fewer than 12 unique
queries). -/
def attemptQueries (oracle : Nat → Except String PyJson) (i : Nat) : Option (List String) :=
  match oracle i with
  | .ok (.arr entries) =>
      let cleaned := cleanQueries entries
      if cleaned.length < 12 then none else some (cleaned.take 12)
  | _ => none

/-- The retry loop: at most 3 attempts, then the `[query]` fallback. -/
def generateQueriesGo (inquiry : String) (oracle : Nat → Except String PyJson) :
    Nat → Nat → List String
  | 0, _ => [pyStrip inquiry]
  | fuel + 1, i =>
      match attemptQueries oracle i with
      | some qs => qs
      | none => generateQueriesGo inquiry oracle fuel (i + 1)

/-- `generate_queries`: `ValueError` on a blank inquiry
(`query = (business_inquiry or "").strip()`), else the retry loop. -/
def generateQueries (inquiry : String) (oracle : Nat → Except String PyJson) :
    Except String (List String) :=
  if pyStrip inquiry = "" then .error "business_inquiry must be provided"
  else .ok (generateQueriesGo inquiry oracle 3 0)

theorem attemptQueries_length {oracle : Nat → Except String PyJson} {i : Nat}
    {qs : List String} (h : attemptQueries oracle i = some qs) : qs.length = 12 := by
  unfold attemptQueries at h
  cases ho : oracle i with
  | error e => rw [ho] at h; simp at h
  | ok j =>
      rw [ho] at h
      cases j with
      | arr entries =>
          simp only [] at h
          by_cases hlen : (cleanQueries entries).length < 12
          · simp [hlen] at h
          · simp [hlen] at h
            rw [← h]
            simp [List.length_take]
            omega
      | null => simp at h
      | bool b => simp at h
      | num n => simp at h
      | str s => simp at h
      | obj kvs => simp at h

/-- C7 counterexample: with a blank-padded inquiry and all three attempts
failing, `generate_queries` falls back to the STRIPPED inquiry, not the
original query verbatim. -/
theorem C7_counterexample :
    generateQueries " sf coffee " (fun _ => .error "OpenAI call failed") =
        .ok ["sf coffee"] ∧
      ("sf coffee" : String) ≠ " sf coffee " := ⟨rfl, by decide⟩

/-- C7 (amended): for a non-blank inquiry, (1) if all 3 attempts fail
(parse failure, non-array reply, or fewer than 12 unique cleaned
queries), `generate_queries` returns the single-element list holding the
inquiry stripped of surrounding whitespace; (2) the first successful
attempt's result is returned and holds exactly 12 queries. -/
theorem C7_expansion_retry_fallback (inquiry : String)
    (oracle : Nat → Except String PyJson) (hq : pyStrip inquiry ≠ "") :
    ((∀ i, i < 3 → attemptQueries oracle i = none) →
        generateQueries inquiry oracle = .ok [pyStrip inquiry]) ∧
      (∀ i, i < 3 → (∀ j, j < i → attemptQueries oracle j = none) →
        ∀ qs, attemptQueries oracle i = some qs →
          generateQueries inquiry oracle = .ok qs ∧ qs.length = 12) := by
  constructor
  · intro hall
    simp [generateQueries, hq, generateQueriesGo, hall 0 (by omega), hall 1 (by omega),
      hall 2 (by omega)]
  · intro i hi hprev qs hqs
    refine ⟨?_, attemptQueries_length hqs⟩
    interval_cases i
    · simp [generateQueries, hq, generateQueriesGo, hqs]
    · simp [generateQueries, hq, generateQueriesGo, hprev 0 (by omega), hqs]
    · simp [generateQueries, hq, generateQueriesGo, hprev 0 (by omega),
        hprev 1 (by omega), hqs]

/-- C7 witness oracle: first attempt replies with 12 distinct keyword
strings. -/
def c7wOracle : Nat → Except String PyJson :=
  fun _ => .ok (.arr [.str "sf", .str "coffee", .str "foodie", .str "food",
    .str "sf coffee", .str "bay area coffee", .str "bay area", .str "oakland",
    .str "berkeley", .str "lifestyle", .str "blogger", .str "creator"])

/-- C7 witness: a failing oracle hits the fallback; the 12-string oracle
returns exactly those 12 queries. -/
theorem C7_expansion_retry_fallback_witness :
    generateQueries "sf coffee shop" (fun _ => .error "boom") =
        .ok [pyStrip "sf coffee shop"] ∧
      (generateQueries "sf coffee shop" c7wOracle =
          .ok ["sf", "coffee", "foodie", "food", "sf coffee", "bay area coffee",
            "bay area", "oakland", "berkeley", "lifestyle", "blogger", "creator"] ∧
        (["sf", "coffee", "foodie", "food", "sf coffee", "bay area coffee",
          "bay area", "oakland", "berkeley", "lifestyle", "blogger",
          "creator"] : List String).length = 12) := by
  constructor
  · exact (C7_expansion_retry_fallback "sf coffee shop" (fun _ => .error "boom")
      (by decide)).1 (fun i _ => rfl)
  · exact (C7_expansion_retry_fallback "sf coffee shop" c7wOracle (by decide)).2
      0 (by omega) (fun j hj => absurd hj (by omega)) _ rfl

/- ------------------------------------------------------------------ -/
/- C9: platform grouping and dataset routing                          -/
/- (`post_filter/brightdata_client.py`: `fetch_profiles`,             -/
/- `_group_urls_by_platform`, `_detect_platform`,                     -/
/- `_build_dataset_error_records`, `_dataset_id_for_platform`).       -/
/- ------------------------------------------------------------------ -/

/-- Whether `needle` starts `hay`. -/
def startsWithChars : List Char → List Char → Bool
  | _, [] => true
  | [], _ :: _ => false
  | h :: t, n :: m => h == n && startsWithChars t m

/-- Whether `needle` occurs anywhere in `hay` (Python `needle in hay`). -/
def containsChars : List Char → List Char → Bool
  | [], needle => needle.isEmpty
  | h :: t, needle => startsWithChars (h :: t) needle || containsChars t needle

/-- Python substring containment. -/
def strContains (hay needle : String) : Bool := containsChars hay.data needle.data

/-- Scanner for the authority marker `://` of `urlparse`. -/
def netlocAfterMarker : List Char → Option (List Char)
  | [] => none
  | ':' :: '/' :: '/' :: rest => some rest
  | _ :: t => netlocAfterMarker t

/-- `urlparse(url).netloc`: the text between the first `://` and the next
path/query/fragment delimiter.  (urlparse also accepts a scheme-less
`//host` form; the URLs this stage stores or synthesises always carry a
scheme, and a URL with no authority yields `""` here as there.) -/
def urlNetloc (url : String) : String :=
  match netlocAfterMarker (pyStrip url).data with
  | none => ""
  | some rest => ⟨rest.takeWhile (fun c => !(c == '/') && !(c == '?') && !(c == '#'))⟩

/-- `_detect_platform`: instagram/tiktok by host substring, else None. -/
def detectPlatform (url : String) : Option String :=
  let host := pyLower (urlNetloc url)
  if host = "" then none
  else if strContains host "instagram.com" then some "instagram"
  else if strContains host "tiktok.com" then some "tiktok"
  else none

/-- `_group_urls_by_platform`: instagram, tiktok, unknown buckets in that
order, empty buckets dropped, url order preserved. -/
def groupUrlsByPlatform (urls : List String) : List (String × List String) :=
  let ig := urls.filter (fun u => detectPlatform u = some "instagram")
  let tk := urls.filter (fun u => detectPlatform u = some "tiktok")
  let un := urls.filter (fun u => detectPlatform u = none)
  ([("instagram", ig), ("tiktok", tk), ("unknown", un)]).filter (fun g => !g.2.isEmpty)

/-- `_dataset_id_for_platform`, parametrised by the two configured
dataset-id settings. -/
def datasetIdFor (igDataset tkDataset : Option String) (platform : String) : Option String :=
  if platform = "instagram" then igDataset
  else if platform = "tiktok" then tkDataset
  else none

/-- One synthetic failure record of `_build_dataset_error_records`. -/
def datasetErrorRecord (url platform : String) : Record :=
  [("profile_url", PyJson.str url), ("platform", PyJson.str platform),
    ("error", PyJson.str (if platform = "unknown" then "unsupported_platform"
      else "missing_" ++ platform ++ "_dataset_id")),
    ("error_code", PyJson.str "dataset_not_configured")]

/-- `_build_dataset_error_records`. -/
def buildDatasetErrorRecords (urls : List String) (platform : String) : List Record :=
  urls.map (fun url => datasetErrorRecord url platform)

/-- The per-group body of `fetch_profiles`: groups without a configured
dataset id get synthetic failure records and are never submitted; the
rest are submitted to the provider (`refresh_profiles` on a dataset-bound
client, abstracted as the `provider` oracle).  Returns (submission log,
provider frames, error records). -/
def fetchGroups (igDataset tkDataset : Option String)
    (provider : String → List String → List Record) :
    List (String × List String) →
      List (String × List String) × List Record × List Record
  | [] => ([], [], [])
  | g :: rest =>
      let acc := fetchGroups igDataset tkDataset provider rest
      match datasetIdFor igDataset tkDataset g.1 with
      | none => (acc.1, acc.2.1, buildDatasetErrorRecords g.2 g.1 ++ acc.2.2)
      | some _ => (g :: acc.1, provider g.1 g.2 ++ acc.2.1, acc.2.2)

/-- `fetch_profiles`: drop falsy urls, group by detected platform, run the
groups, and merge provider frames followed by the error records.  The
first component is the submission log (which groups were actually sent to
the provider). -/
def fetchProfiles (igDataset tkDataset : Option String)
    (provider : String → List String → List Record) (profileUrls : List String) :
    List (String × List String) × List Record :=
  let urls := profileUrls.filter (fun u => u ≠ "")
  if urls.isEmpty then ([], [])
  else
    let acc := fetchGroups igDataset tkDataset provider (groupUrlsByPlatform urls)
    (acc.1, acc.2.1 ++ acc.2.2)

theorem fetchGroups_submitted (igDataset tkDataset : Option String)
    (provider : String → List String → List Record)
    (groups : List (String × List String)) (g : String × List String)
    (h : g ∈ (fetchGroups igDataset tkDataset provider groups).1) :
    datasetIdFor igDataset tkDataset g.1 ≠ none := by
  induction groups with
  | nil => simp [fetchGroups] at h
  | cons g0 rest ih =>
      rw [fetchGroups] at h
      cases hd : datasetIdFor igDataset tkDataset g0.1 with
      | none =>
          rw [hd] at h
          exact ih h
      | some ds =>
          rw [hd] at h
          rcases List.mem_cons.mp h with h | h
          · rw [h, hd]
            simp
          · exact ih h

theorem fetchGroups_errors (igDataset tkDataset : Option String)
    (provider : String → List String → List Record)
    (groups : List (String × List String)) (g : String × List String)
    (hg : g ∈ groups) (hd : datasetIdFor igDataset tkDataset g.1 = none)
    (u : String) (hu : u ∈ g.2) :
    datasetErrorRecord u g.1 ∈ (fetchGroups igDataset tkDataset provider groups).2.2 := by
  induction groups with
  | nil => simp at hg
  | cons g0 rest ih =>
      rw [fetchGroups]
      rcases List.mem_cons.mp hg with hg0 | hg0
      · subst hg0
        rw [hd]
        refine List.mem_append.mpr (Or.inl ?_)
        exact List.mem_map.mpr ⟨u, hu, rfl⟩
      · cases hd0 : datasetIdFor igDataset tkDataset g0.1 with
        | none => exact List.mem_append.mpr (Or.inr (ih hg0))
        | some ds => exact ih hg0

/-- C9 (amended): (1) `fetch_profiles` never submits a group whose
platform has no configured dataset id — in particular the `unknown` group
is never submitted; (2) every URL of such a group gets a synthetic
failure record (reason `unsupported_platform` for the unknown group,
`missing_<platform>_dataset_id` for an unconfigured platform) in the
merged result.  The claim's further universal — every profile whose
platform field is neither instagram nor tiktok lands in an unsubmitted
group — is refuted by the counterexample: `_profile_url` synthesises an
instagram URL for any non-tiktok platform, so such a profile can be
grouped and submitted as instagram. -/
theorem C9_unconfigured_never_submitted (igDataset tkDataset : Option String)
    (provider : String → List String → List Record) (profileUrls : List String) :
    (∀ g ∈ (fetchProfiles igDataset tkDataset provider profileUrls).1,
        datasetIdFor igDataset tkDataset g.1 ≠ none) ∧
      (∀ g ∈ groupUrlsByPlatform (profileUrls.filter (fun u => u ≠ "")),
        datasetIdFor igDataset tkDataset g.1 = none →
        ∀ u ∈ g.2,
          datasetErrorRecord u g.1 ∈
            (fetchProfiles igDataset tkDataset provider profileUrls).2) := by
  by_cases he : (profileUrls.filter (fun u => u ≠ "")).isEmpty
  · constructor
    · intro g hg
      simp only [fetchProfiles, he, if_true, if_pos] at hg
      exact absurd hg (List.not_mem_nil g)
    · intro g hg
      have : profileUrls.filter (fun u => u ≠ "") = [] := List.isEmpty_iff.mp he
      rw [this] at hg
      simp [groupUrlsByPlatform] at hg
  · constructor
    · intro g hg
      simp only [fetchProfiles, he, if_false, if_neg, Bool.false_eq_true] at hg
      exact fetchGroups_submitted igDataset tkDataset provider _ g hg
    · intro g hg hd u hu
      simp only [fetchProfiles, he, if_false, if_neg, Bool.false_eq_true]
      exact List.mem_append.mpr
        (Or.inr (fetchGroups_errors igDataset tkDataset provider _ g hg hd u hu))

/-- C9 witness: with no dataset ids configured, an instagram-hosted URL
and an unknown-host URL each receive their synthetic failure record, and
nothing is submitted. -/
theorem C9_unconfigured_never_submitted_witness :
    datasetErrorRecord "https://instagram.com/a" "instagram" ∈
        (fetchProfiles none none (fun _ _ => [])
          ["https://instagram.com/a", "https://other.example/b"]).2 ∧
      datasetErrorRecord "https://other.example/b" "unknown" ∈
        (fetchProfiles none none (fun _ _ => [])
          ["https://instagram.com/a", "https://other.example/b"]).2 := by
  constructor
  · exact (C9_unconfigured_never_submitted none none (fun _ _ => [])
      ["https://instagram.com/a", "https://other.example/b"]).2
      ("instagram", ["https://instagram.com/a"]) (by decide) rfl
      "https://instagram.com/a" (by decide)
  · exact (C9_unconfigured_never_submitted none none (fun _ _ => [])
      ["https://instagram.com/a", "https://other.example/b"]).2
      ("unknown", ["https://other.example/b"]) (by decide) rfl
      "https://other.example/b" (by decide)

/-- C9 counterexample profile: platform `youtube`, no stored URL, a
username. -/
def c9Profile : CreatorProfile :=
  { id := 9, account := "", profile_name := "Yara", followers := 10,
    avg_engagement := 0, business_category_name := "", business_address := "",
    biography := "", username := some "foo", platform := some "youtube" }

/-- C9 counterexample: a profile whose platform is NEITHER instagram NOR
tiktok (`youtube`) gets an instagram URL synthesised by `_profile_url`,
is grouped as instagram by the URL host, and — with an instagram dataset
configured — its group IS submitted to the provider, contradicting the
claim that every such profile falls in an unsubmitted group. -/
theorem C9_counterexample :
    profileUrlOf c9Profile = some "https://instagram.com/foo" ∧
      c9Profile.platform = some "youtube" ∧
      (fetchProfiles (some "gd_inst") none (fun _ _ => [])
          ["https://instagram.com/foo"]).1 =
        [("instagram", ["https://instagram.com/foo"])] :=
  ⟨rfl, rfl, rfl⟩

/-- C1 witness: the dedup pairwise-distinctness applied at a concrete
search run. -/
theorem C1_search_output_dedup_witness :
    List.Pairwise (fun a b => searchDedupeKey a ≠ searchDedupeKey b)
      (searchStageRun "sf coffee" [[some c1ProfileA, some c1ProfileB]] 1000 20) :=
  C1_search_output_dedup "sf coffee" [[some c1ProfileA, some c1ProfileB]] 1000 20

/-- C4 witness: the only-the-final-stage-reaches-100 clause applied at the
concrete stage that does reach 100. -/
theorem C4_progress_monotone_witness : ("LLM_FIT" : String) = "LLM_FIT" :=
  C4_progress_monotone.2.2.2.2.2 "LLM_FIT" (by decide) (by decide)

/-- C8 witness: the empty-query precondition error at a concrete input. -/
theorem C8_empty_query_precondition_witness :
    llmFitRun [] "" (fun _ _ => .error "no call") =
      .error "business_fit_query is required for LLM fit stage" :=
  C8_empty_query_precondition [] (fun _ _ => .error "no call")
